import Mathlib

/-!
Verification of the ML-engine signal pipeline of this repository.

The Python sources `src/MLEngine/signals/pattern_detector.py` and
`src/MLEngine/signals/signal_generator.py` (with configuration values from
`src/MLEngine/config.py` and the request/response records from
`src/MLEngine/api/endpoints.py`) are shallowly embedded below.  Real-number
arithmetic of the source is modelled over the rationals; a square root
(needed only by the two standard-deviation helpers of the detector bank and
the feature engineer) is taken as an explicit function parameter `sq`, so
every statement proved for all `sq` in particular covers the true square
root.  Division in the source raises `ZeroDivisionError` on a zero
denominator; the one unguarded division of the pipeline (the `risk_reward`
expression of `generate_signal`) is modelled with `Option` so the fault is
visible, and the enclosing `try/except` of `generate_signal` is modelled by
the fallback branch of that definition.  `round(x, 2)` is modelled as exact
round-half-to-even to a multiple of 1/100.
-/

attribute [local semireducible] Rat.mul Rat.add Rat.sub Rat.inv Rat.ofScientific

set_option maxRecDepth 100000

set_option maxHeartbeats 1000000

/-- Trading direction: the strings "BUY" / "SELL" / "HOLD" of the source. -/
inductive Direction where
  | Buy
  | Sell
  | Hold
deriving DecidableEq

/-- Aggressor side of a tape tick: the strings "buy" / "sell". -/
inductive Side where
  | buy
  | sell
deriving DecidableEq

/-- Order type of a tape tick: the strings "market" / "limit" / "stop". -/
inductive OrderType where
  | market
  | limit
  | stop
deriving DecidableEq

/-- One tape tick (`TapeData` of `api/endpoints.py`).  The timestamp field is
omitted: no embedded computation reads it. -/
structure Tick where
  price : ℚ
  volume : ℤ
  aggressor : Side
  orderType : OrderType
deriving DecidableEq

/-- Order-flow snapshot (`OrderFlowData` of `api/endpoints.py`).  Field names
shortened from the source: `imbalance` is `imbalance_ratio`, `aggression` is
`aggression_score`, `hidden` is `hidden_liquidity`, `delta` is
`cumulative_delta`. -/
structure OrderFlow where
  bidVolume : ℤ
  askVolume : ℤ
  imbalance : ℚ
  aggression : ℚ
  hidden : ℚ
  delta : ℚ
deriving DecidableEq

/-- Market snapshot (`MarketData` of `api/endpoints.py`); the symbol string is
omitted: no embedded computation reads it. -/
structure MarketData where
  price : ℚ
  bid : ℚ
  ask : ℚ
  spread : ℚ
  volume : ℤ
deriving DecidableEq

/-- Wall-clock data read by `_engineer_features` via `datetime.now()`,
made an explicit input. -/
structure Now where
  hour : ℤ
  minute : ℤ
  weekday : ℤ
deriving DecidableEq

/-- The trading-signal record (`TradingSignal` of `api/endpoints.py`)
restricted to its numeric and discrete fields; `reasoning`, `timestamp` and
`metadata` are presentational and omitted. -/
structure TradingSignal where
  signal : Direction
  confidence : ℚ
  stopLoss : ℚ
  target : ℚ
  riskReward : ℚ
  patternMatched : String
deriving DecidableEq

/-- Round-half-to-even to an integer (Python `round` on exact values). -/
def roundHE (q : ℚ) : ℤ :=
  let f := ⌊q⌋
  let r := q - f
  if r < 1/2 then f
  else if 1/2 < r then f + 1
  else if Even f then f else f + 1

/-- Python `round(x, 2)`: round-half-to-even to a multiple of 1/100. -/
def round2 (q : ℚ) : ℚ := (roundHE (100 * q) : ℚ) / 100

/-- `np.mean` / `pd.mean` over rationals (meaningful only on nonempty input;
every call site of the source is guarded to nonempty input). -/
def meanQ (l : List ℚ) : ℚ := l.sum / l.length

/-- `np.std` (population, ddof 0) with the square root supplied as `sq`. -/
def popStd (sq : ℚ → ℚ) (l : List ℚ) : ℚ :=
  sq ((l.map (fun x => (x - meanQ l) ^ 2)).sum / (l.length : ℚ))

/-- `pandas.Series.std` (sample, ddof 1) with the square root supplied as
`sq`.  On a one-element series pandas yields NaN; that entry of the feature
vector is never read by any scoring strategy, and this model returns 0
(rational division by zero) in that slot. -/
def sampleStd (sq : ℚ → ℚ) (l : List ℚ) : ℚ :=
  sq ((l.map (fun x => (x - meanQ l) ^ 2)).sum / ((l.length : ℚ) - 1))

/-- Python slice `l[-n:]`. -/
def lastN (n : ℕ) (l : List α) : List α := l.drop (l.length - n)

/-- Consecutive differences, as `pandas.Series.diff().dropna()`. -/
def diffs (ps : List ℚ) : List ℚ := (ps.zip ps.tail).map (fun pr => pr.2 - pr.1)

/-- Python `max` over a nonempty list (head/tail form), default 0 on `[]`;
all call sites are guarded to nonempty lists. -/
def listMaxD (l : List ℚ) : ℚ :=
  match l with
  | [] => 0
  | x :: xs => xs.foldl max x

/-- Python `min` over a nonempty list, default 0 on `[]`. -/
def listMinD (l : List ℚ) : ℚ :=
  match l with
  | [] => 0
  | x :: xs => xs.foldl min x

/-- The clamp `max(0.0, min(1.0, c))` of `_detect_single_pattern`. -/
def clamp01 (x : ℚ) : ℚ := max 0 (min 1 x)

/-- Python float division, faulting (`ZeroDivisionError`) on a zero
denominator. -/
def qdivFault (a b : ℚ) : Option ℚ := if b = 0 then none else some (a / b)

/-- Python `max(items, key=snd)` over a nonempty list: the FIRST item of
maximal second component (later items replace only on strict increase). -/
def pyBest (p : String × ℚ) (ps : List (String × ℚ)) : String × ℚ :=
  ps.foldl (fun a x => if x.2 > a.2 then x else a) p

/-- `features[i]`; the engineered vector always has 28 (normal) or 30
(error-path) entries and every read index of the source is below 14, so the
default is never hit. -/
def fget (fs : List ℚ) (i : ℕ) : ℚ := fs.getD i 0

/-! ## Pattern detector bank (`signals/pattern_detector.py`) -/

/-- Rounded price levels of a window, in first-appearance order
(the keys of the `price_volume` dict of `_template_absorption`). -/
def tickLevels (w : List Tick) : List ℚ := (w.map (fun t => round2 t.price)).dedup

/-- Total volume traded at one rounded price level. -/
def levelVol (w : List Tick) (p : ℚ) : ℚ :=
  ((w.filter (fun t => round2 t.price == p)).map (fun t => (t.volume : ℚ))).sum

/-- Per-level volumes of the absorption window (`tape_data[-20:]`). -/
def absorptionLevelVols (tape : List Tick) : List ℚ :=
  (tickLevels (lastN 20 tape)).map (levelVol (lastN 20 tape))

/-- `absorption_ratio`: highest per-level volume over total window volume. -/
def concentrationInput (tape : List Tick) : ℚ :=
  let tv := (absorptionLevelVols tape).sum
  if tv > 0 then listMaxD (absorptionLevelVols tape) / tv else 0

/-- `stability_score` of `_template_absorption`. -/
def stabilityScore (tape : List Tick) : ℚ :=
  1 - min ((listMaxD (tickLevels (lastN 20 tape)) - listMinD (tickLevels (lastN 20 tape))) / 2) 1

/-- `flow_score` of `_template_absorption`. -/
def absorptionFlow (ofl : OrderFlow) : ℚ := min (|ofl.imbalance| / 2) 1

/-- `_template_absorption`. -/
def template_absorption (_mkt : MarketData) (tape : List Tick) (ofl : OrderFlow) : ℚ :=
  if tape.length < 20 then 0
  else if tickLevels (lastN 20 tape) = [] then 0
  else
    min (concentrationInput tape * 3) 1 * (2/5)
      + stabilityScore tape * (3/10) + absorptionFlow ofl * (3/10)

/-- Loop state of the consecutive-same-price grouping of `_template_iceberg`. -/
structure SeqAcc where
  cur : List Tick
  curPrice : Option ℚ
  recs : List (List Tick)

/-- One step of the grouping loop of `_template_iceberg`. -/
def icebergStep (a : SeqAcc) (t : Tick) : SeqAcc :=
  let p := round2 t.price
  if a.curPrice = some p then { a with cur := a.cur ++ [t] }
  else
    { cur := [t], curPrice := some p,
      recs := if 3 ≤ a.cur.length then a.recs ++ [a.cur] else a.recs }

/-- All recorded runs of ≥ 3 consecutive same-price ticks
(the flattened `price_sequences` of `_template_iceberg`). -/
def icebergSeqs (w : List Tick) : List (List Tick) :=
  let a := w.foldl icebergStep ⟨[], none, []⟩
  if 3 ≤ a.cur.length then a.recs ++ [a.cur] else a.recs

/-- `sequence_score` of `_template_iceberg`. -/
def seqScore (sq : ℚ → ℚ) (ofl : OrderFlow) (s : List Tick) : ℚ :=
  let vols := s.map (fun t => (t.volume : ℚ))
  let vc := if meanQ vols > 0 then 1 - popStd sq vols / meanQ vols else 0
  let buys := (s.filter (fun t => t.aggressor == Side.buy)).length
  let dom := ((max buys (s.length - buys) : ℕ) : ℚ) / (s.length : ℚ)
  vc * (2/5) + dom * (3/10) + min (ofl.hidden / 100) 1 * (3/10)

/-- `_template_iceberg`. -/
def template_iceberg (sq : ℚ → ℚ) (_mkt : MarketData) (tape : List Tick) (ofl : OrderFlow) : ℚ :=
  if tape.length < 30 then 0
  else
    let seqs := icebergSeqs (lastN 30 tape)
    if seqs = [] then 0
    else (seqs.map (seqScore sq ofl)).foldl max 0

/-- `_template_aggressive_entry`. -/
def template_aggressive_entry (_mkt : MarketData) (tape : List Tick) (ofl : OrderFlow) : ℚ :=
  if tape.length < 10 then 0
  else
    let w := lastN 10 tape
    let vols := w.map (fun t => (t.volume : ℚ))
    let avg := meanQ vols
    let spike := if avg > 0 then listMaxD vols / avg else 1
    let vscore := min ((spike - 1) / 3) 1
    let urgency := ((w.filter (fun t => t.orderType == OrderType.market)).length : ℚ) / (w.length : ℚ)
    let aggr := min |ofl.aggression| 1
    let pcs := diffs (w.map (·.price))
    let mscore :=
      if 5 ≤ w.length then
        min (|if pcs = [] then 0 else pcs.sum / (pcs.length : ℚ)| / 2) 1
      else 0
    vscore * (3/10) + urgency * (3/10) + aggr * (1/5) + mscore * (1/5)

/-- The price-rejection counter of `_template_hidden_liquidity`: for every
index `i ≥ 2`, a rejection is a sign flip after a move of more than 0.5. -/
def countRejections : List ℚ → ℕ
  | a :: b :: c :: rest =>
      (if |b - a| > 1/2 ∧ (c - b) * (b - a) < 0 then 1 else 0)
        + countRejections (b :: c :: rest)
  | _ => 0

/-- `_template_hidden_liquidity`.  Note: the source has no minimum-window
guard returning 0; below 15 ticks it returns the normalised order-flow
hidden-liquidity indicator alone. -/
def template_hidden_liquidity (_mkt : MarketData) (tape : List Tick) (ofl : OrderFlow) : ℚ :=
  let base := min (ofl.hidden / 100) 1
  if 15 ≤ tape.length then
    let w := lastN 15 tape
    let rejFrac : ℚ := (countRejections (w.map (·.price)) : ℚ) / ((max (w.length - 2) 1 : ℕ) : ℚ)
    base * (7/10) + min (rejFrac * 2) 1 * (3/10)
  else base

/-- `pattern_confidence` computed at index `i` of the stop-hunt scan
(0 when the quick-move/reversal conditions fail, exactly as the source
leaves `confidence` unchanged there). -/
def stopHuntAt (w : List Tick) (i : ℕ) : ℚ :=
  let ps := w.map (·.price)
  let qm := ps.getD i 0 - ps.getD (i - 5) 0
  let rev := ps.getD (i + 5) 0 - ps.getD i 0
  if |qm| > 1 ∧ |rev| > |qm| * (3/5) ∧ qm * rev < 0 then
    let qvols := ((w.drop (i - 5)).take 5).map (fun t => (t.volume : ℚ))
    let avg := meanQ (w.map (fun t => (t.volume : ℚ)))
    let spike := if avg > 0 then listMaxD qvols / avg else 1
    min ((spike - 1) / 2) 1 * (1/2) + min (|rev| / |qm|) 1 * (1/2)
  else 0

/-- `_template_stop_hunt`: maximum of the per-index pattern confidences over
`i ∈ range(10, len(recent) - 5)`, starting from 0. -/
def template_stop_hunt (_mkt : MarketData) (tape : List Tick) (_ofl : OrderFlow) : ℚ :=
  if tape.length < 25 then 0
  else
    let w := lastN 25 tape
    ((List.range (w.length - 5 - 10)).map (fun j => stopHuntAt w (10 + j))).foldl max 0

/-- `calculate_momentum` of `_template_momentum_shift`: volume-weighted mean
price change of a segment. -/
def segMomentum (seg : List Tick) : ℚ :=
  if seg.length < 2 then 0
  else
    let steps := seg.zip seg.tail
    let vw := (steps.map (fun pr => (pr.2.price - pr.1.price) * (pr.2.volume : ℚ))).sum
    let tv := (steps.map (fun pr => (pr.2.volume : ℚ))).sum
    if tv > 0 then vw / tv else 0

/-- `_template_momentum_shift`. -/
def template_momentum_shift (_mkt : MarketData) (tape : List Tick) (ofl : OrderFlow) : ℚ :=
  if tape.length < 20 then 0
  else
    let w := lastN 20 tape
    let m1 := segMomentum (w.take (w.length / 2))
    let m2 := segMomentum (w.drop (w.length / 2))
    if |m1| > 1/10 ∧ |m2| > 1/10 ∧ m1 * m2 < 0 then
      min (min (|m2 - m1| / 2) 1 + min (|ofl.delta| / 100) (3/10)) 1
    else 0

/-- `_template_volume_spike`. -/
def template_volume_spike (sq : ℚ → ℚ) (_mkt : MarketData) (tape : List Tick) (_ofl : OrderFlow) : ℚ :=
  if tape.length < 15 then 0
  else
    let w := lastN 15 tape
    let vols := w.map (fun t => (t.volume : ℚ))
    let avg := meanQ vols
    let sd := popStd sq vols
    let mx := listMaxD vols
    let vss := if sd > 0 then min ((mx - avg) / sd / 3) 1 else 0
    let mi := vols.indexOf mx
    let iscore :=
      if 0 < mi ∧ mi < w.length - 1 then
        min (|(w.map (·.price)).getD (mi + 1) 0 - (w.map (·.price)).getD (mi - 1) 0| / 1) 1
      else 0
    vss * (7/10) + iscore * (3/10)

/-- `_template_order_flow_imbalance`.  Note: the source has no
minimum-window guard returning 0; below 10 ticks it returns the normalised
order-flow imbalance alone. -/
def template_order_flow_imbalance (_mkt : MarketData) (tape : List Tick) (ofl : OrderFlow) : ℚ :=
  let base := min (|ofl.imbalance| / 2) 1
  if 10 ≤ tape.length then
    let w := lastN 10 tape
    let bv := ((w.filter (fun t => t.aggressor == Side.buy)).map (fun t => (t.volume : ℚ))).sum
    let sv := ((w.filter (fun t => t.aggressor == Side.sell)).map (fun t => (t.volume : ℚ))).sum
    if bv + sv > 0 then base * (3/5) + min (|bv - sv| / (bv + sv) * 2) 1 * (2/5)
    else base
  else base

/-- `self.thresholds` of `PatternDetector`, with the `.get(name, 0.8)`
default of `detect_patterns`. -/
def patternThreshold : String → ℚ
  | "absorption" => 17/20
  | "iceberg" => 4/5
  | "aggressive_entry" => 9/10
  | "hidden_liquidity" => 17/20
  | "stop_hunt" => 19/20
  | "momentum_shift" => 4/5
  | "volume_spike" => 3/4
  | "order_flow_imbalance" => 4/5
  | _ => 4/5

/-- `self.pattern_templates`: the fixed detector registry, in insertion
order. -/
def patternRegistry (sq : ℚ → ℚ) :
    List (String × (MarketData → List Tick → OrderFlow → ℚ)) :=
  [("absorption", template_absorption),
   ("iceberg", template_iceberg sq),
   ("aggressive_entry", template_aggressive_entry),
   ("hidden_liquidity", template_hidden_liquidity),
   ("stop_hunt", template_stop_hunt),
   ("momentum_shift", template_momentum_shift),
   ("volume_spike", template_volume_spike sq),
   ("order_flow_imbalance", template_order_flow_imbalance)]

/-- `_detect_single_pattern`: run one template and clamp to [0, 1]. -/
def detect_single_pattern (f : MarketData → List Tick → OrderFlow → ℚ)
    (mkt : MarketData) (tape : List Tick) (ofl : OrderFlow) : ℚ :=
  clamp01 (f mkt tape ofl)

/-- `detect_patterns`: every registered detector is run, clamped, and kept
iff its confidence meets its threshold; an empty or sub-10-tick window
yields the empty mapping. -/
def detect_patterns (sq : ℚ → ℚ) (mkt : MarketData) (tape : List Tick) (ofl : OrderFlow) :
    List (String × ℚ) :=
  if tape.length < 10 then []
  else
    (patternRegistry sq).filterMap (fun nf =>
      let c := detect_single_pattern nf.2 mkt tape ofl
      if patternThreshold nf.1 ≤ c then some (nf.1, c) else none)

/-! ## Signal generator (`signals/signal_generator.py`) and configuration
(`config.py`) -/

/-- `Settings.MIN_PATTERN_CONFIDENCE`. -/
def minPatternConfidence : ℚ := 17/20

/-- `Settings.TARGET_POINTS`. -/
def targetPoints : ℚ := 2

/-- `Settings.STOP_LOSS_POINTS`. -/
def stopLossPoints : ℚ := 3/2

/-- `1 if t.aggressor_side == 'buy' else -1`. -/
def sideSign : Side → ℚ
  | Side.buy => 1
  | Side.sell => -1

/-- Tape-derived section of the feature vector (9 entries, zero-filled when
the tape is empty): volume sum / mean / sample std, net aggressor-signed
volume, buy-tick fraction, then mean / sample std of price deltas, up-tick
fraction, net price change, over the `tape_data[-50:]` window. -/
def tapeFeats (sq : ℚ → ℚ) (tape : List Tick) : List ℚ :=
  match tape with
  | [] => List.replicate 9 0
  | _ =>
    let w := lastN 50 tape
    let vols := w.map (fun t => (t.volume : ℚ))
    let prices := w.map (·.price)
    let pcs := diffs prices
    [vols.sum, vols.sum / (w.length : ℚ), sampleStd sq vols,
     (w.map (fun t => sideSign t.aggressor * (t.volume : ℚ))).sum,
     ((w.filter (fun t => t.aggressor == Side.buy)).length : ℚ) / (w.length : ℚ),
     pcs.sum / (pcs.length : ℚ), sampleStd sq pcs,
     ((pcs.filter (fun x => x > 0)).length : ℚ) / (pcs.length : ℚ),
     (prices.getLast?).getD 0 - (prices.head?).getD 0]

/-- Technical-indicator section of the feature vector (4 entries, zero-filled
below 20 ticks). -/
def techFeats (tape : List Tick) : List ℚ :=
  if 20 ≤ tape.length then
    let prices := (lastN 20 tape).map (·.price)
    let vols := (lastN 20 tape).map (fun t => (t.volume : ℚ))
    let sma5 := meanQ (lastN 5 prices)
    let sma10 := meanQ (lastN 10 prices)
    let volAvg := meanQ vols
    [sma5, sma10, sma5 - sma10,
     if volAvg > 0 then (vols.getLast?).getD 0 / volAvg else 1]
  else List.replicate 4 0

/-- `_engineer_features`.  A one-tick tape raises `ZeroDivisionError` in the
source (the up-tick fraction divides by an empty diff count) and the handler
returns `np.zeros(30)`; every other input follows the normal 28-entry path. -/
def engineer_features (sq : ℚ → ℚ) (now : Now) (mkt : MarketData)
    (tape : List Tick) (ofl : OrderFlow) : List ℚ :=
  if tape.length = 1 then List.replicate 30 0
  else
    [mkt.price, mkt.bid, mkt.ask, mkt.spread, (mkt.volume : ℚ)]
      ++ tapeFeats sq tape
      ++ [(ofl.bidVolume : ℚ), (ofl.askVolume : ℚ), ofl.imbalance,
          ofl.aggression, ofl.hidden, ofl.delta]
      ++ techFeats tape
      ++ [(now.hour : ℚ), (now.minute : ℚ), (now.weekday : ℚ),
          if 9 ≤ now.hour ∧ now.hour < 16 then 1 else 0]

/-- `_predict_pattern_model`: the pattern-rule strategy. -/
def predict_pattern_model (patterns : List (String × ℚ)) : Direction × ℚ :=
  match patterns with
  | [] => (Direction.Hold, 1/2)
  | p :: ps =>
    let best := pyBest p ps
    if best.1 = "absorption" ∧ best.2 > 17/20 then (Direction.Buy, best.2)
    else if best.1 = "iceberg" ∧ best.2 > 4/5 then (Direction.Buy, best.2)
    else if best.1 = "aggressive_sell" ∧ best.2 > 17/20 then (Direction.Sell, best.2)
    else if best.1 = "stop_hunt" ∧ best.2 > 9/10 then (Direction.Buy, best.2)
    else (Direction.Hold, best.2)

/-- `_predict_confidence_model`: the feature-confidence strategy.  The
source indexes `features[12]` and `features[13]`, which are the up-tick
fraction and the net price change of the tape section (the inline comments
of the source call them imbalance and aggression, but the order-flow section
starts at index 14). -/
def predict_confidence_model (fs : List ℚ) : Direction × ℚ :=
  if fs.length < 10 then (Direction.Hold, 0)
  else
    let vs := if fget fs 4 > 0 then min (fget fs 4 / 100) 1 else 0
    let ss := if fget fs 3 > 0 then max 0 (1 - fget fs 3 / 2) else 0
    let flow :=
      if 15 < fs.length then
        ((if 12 < fs.length then |fget fs 12| else 0)
          + (if 13 < fs.length then fget fs 13 else 0)) / 2
      else 0
    let overall := vs * (3/10) + ss * (1/5) + flow * (1/2)
    if overall > 17/20 then
      if 13 < fs.length ∧ fget fs 13 > 7/10 then (Direction.Buy, overall)
      else if 13 < fs.length ∧ fget fs 13 < -(7/10) then (Direction.Sell, overall)
      else (Direction.Hold, overall)
    else (Direction.Hold, overall)

/-- `_predict_ensemble_model`: the momentum-ensemble strategy. -/
def predict_ensemble_model (fs : List ℚ) : Direction × ℚ :=
  if fs.length < 5 then (Direction.Hold, 1/2)
  else
    let pm := if 1 < fs.length then fget fs 0 - fget fs 1 else 0
    let vf := if fget fs 4 > 0 then min (fget fs 4 / 50) 2 else 1
    let score := min (|pm| * vf / 10) 1
    if score > 4/5 then
      (if pm > 0 then Direction.Buy else Direction.Sell, score)
    else (Direction.Hold, score)

/-- The per-direction vote buckets and running total of
`_combine_predictions`. -/
structure VoteAcc where
  buy : ℚ
  sell : ℚ
  hold : ℚ
  total : ℚ
deriving DecidableEq

/-- One step of the weighted-voting loop: add `weight * confidence` to the
vote's bucket and to the running total. -/
def addVote (a : VoteAcc) (v : (Direction × ℚ) × ℚ) : VoteAcc :=
  let c := v.2 * v.1.2
  match v.1.1 with
  | Direction.Buy => { a with buy := a.buy + c, total := a.total + c }
  | Direction.Sell => { a with sell := a.sell + c, total := a.total + c }
  | Direction.Hold => { a with hold := a.hold + c, total := a.total + c }

/-- The three (vote, weight) pairs of `_combine_predictions` folded in the
source's iteration order: pattern 0.4, confidence 0.3, ensemble 0.3. -/
def voteTotals (pp cp ep : Direction × ℚ) : VoteAcc :=
  [(pp, (2 : ℚ)/5), (cp, (3 : ℚ)/10), (ep, (3 : ℚ)/10)].foldl addVote ⟨0, 0, 0, 0⟩

/-- `sum(self.model_weights.values())`. -/
def weightSum : ℚ := 2/5 + 3/10 + 3/10

/-- `max(signal_votes.items(), key=value)` over the buckets in dict order
BUY, SELL, HOLD: the first bucket of maximal accumulated value wins. -/
def winningDir (a : VoteAcc) : Direction :=
  if a.sell > a.buy then (if a.hold > a.sell then Direction.Hold else Direction.Sell)
  else (if a.hold > a.buy then Direction.Hold else Direction.Buy)

/-- `final_confidence` before the gate: accumulated total over the weight
sum. -/
def computedConfidence (pp cp ep : Direction × ℚ) : ℚ :=
  (voteTotals pp cp ep).total / weightSum

/-- `_combine_predictions`: weighted vote plus the minimum-confidence gate. -/
def combine_predictions (pp cp ep : Direction × ℚ) : Direction × ℚ :=
  if computedConfidence pp cp ep < minPatternConfidence then
    (Direction.Hold, max (computedConfidence pp cp ep) (1/2))
  else (winningDir (voteTotals pp cp ep), computedConfidence pp cp ep)

/-- `_calculate_risk_reward`: stop/target offsets scaled by confidence and
rounded to 2 decimals; Hold returns the current price twice, unrounded. -/
def calculate_risk_reward (price : ℚ) (dir : Direction) (conf : ℚ) : ℚ × ℚ :=
  match dir with
  | Direction.Hold => (price, price)
  | Direction.Buy =>
      (round2 (price - stopLossPoints * (2 - conf)),
       round2 (price + targetPoints * min (conf * (3/2)) 2))
  | Direction.Sell =>
      (round2 (price + stopLossPoints * (2 - conf)),
       round2 (price - targetPoints * min (conf * (3/2)) 2))

/-- The `risk_reward` keyword argument of the `TradingSignal` construction in
`generate_signal`: a conditional expression dividing by `price - stop_loss`
for BUY and by `stop_loss - price` otherwise (including HOLD, where both
operands are zero and Python raises `ZeroDivisionError`). -/
def riskRewardExpr (price stop tgt : ℚ) (dir : Direction) : Option ℚ :=
  if dir = Direction.Buy then qdivFault (tgt - price) (price - stop)
  else qdivFault (price - tgt) (stop - price)

/-- `pattern_matched`: the highest-confidence detected pattern, "none" when
the mapping is empty. -/
def pmName : List (String × ℚ) → String
  | [] => "none"
  | p :: ps => (pyBest p ps).1

/-- The body of `generate_signal` after the three model predictions are
combined: construct the signal record, or, when the risk-reward expression
faults, fall into the `except` handler and return the safe HOLD record
(confidence 0, stop and target at the current price, risk-reward 0,
pattern "error"). -/
def buildSignal (price : ℚ) (dc : Direction × ℚ) (patterns : List (String × ℚ)) :
    TradingSignal :=
  match riskRewardExpr price (calculate_risk_reward price dc.1 dc.2).1
      (calculate_risk_reward price dc.1 dc.2).2 dc.1 with
  | some rr =>
      { signal := dc.1, confidence := dc.2,
        stopLoss := (calculate_risk_reward price dc.1 dc.2).1,
        target := (calculate_risk_reward price dc.1 dc.2).2,
        riskReward := rr, patternMatched := pmName patterns }
  | none =>
      { signal := Direction.Hold, confidence := 0, stopLoss := price,
        target := price, riskReward := 0, patternMatched := "error" }

/-- `generate_signal`: feature engineering, the three scoring strategies,
weighted combination, risk calculation and record construction, with the
blanket `except` modelled by the fallback branch of `buildSignal`. -/
def generate_signal (sq : ℚ → ℚ) (now : Now) (mkt : MarketData)
    (tape : List Tick) (ofl : OrderFlow) (patterns : List (String × ℚ)) :
    TradingSignal :=
  buildSignal mkt.price
    (combine_predictions (predict_pattern_model patterns)
      (predict_confidence_model (engineer_features sq now mkt tape ofl))
      (predict_ensemble_model (engineer_features sq now mkt tape ofl)))
    patterns

/-- The three risk fields (stop_loss, target, risk_reward) of the signal
that `generate_signal` returns for a given current price and combined
(direction, confidence). -/
def riskFields (price : ℚ) (dir : Direction) (conf : ℚ) : ℚ × ℚ × ℚ :=
  let s := buildSignal price (dir, conf) []
  (s.stopLoss, s.target, s.riskReward)

/-! ## Helper lemmas -/

lemma roundHE_le (q : ℚ) : (roundHE q : ℚ) ≤ q + 1/2 := by
  have h1 := Int.floor_le q
  have h2 := Int.lt_floor_add_one q
  unfold roundHE
  dsimp only
  split_ifs <;> push_cast <;> linarith

lemma le_roundHE (q : ℚ) : q - 1/2 ≤ (roundHE q : ℚ) := by
  have h1 := Int.floor_le q
  have h2 := Int.lt_floor_add_one q
  unfold roundHE
  dsimp only
  split_ifs <;> push_cast <;> linarith

lemma round2_le (q : ℚ) : round2 q ≤ q + 1/200 := by
  have h := roundHE_le (100 * q)
  unfold round2
  linarith

lemma le_round2 (q : ℚ) : q - 1/200 ≤ round2 q := by
  have h := le_roundHE (100 * q)
  unfold round2
  linarith

lemma clamp01_nonneg (x : ℚ) : 0 ≤ clamp01 x := le_max_left _ _

lemma clamp01_le_one (x : ℚ) : clamp01 x ≤ 1 :=
  max_le (by norm_num) (min_le_left _ _)

lemma pyBest_mem (p : String × ℚ) (ps : List (String × ℚ)) :
    pyBest p ps = p ∨ pyBest p ps ∈ ps := by
  induction ps generalizing p with
  | nil => left; rfl
  | cons x xs ih =>
      unfold pyBest
      simp only [List.foldl_cons]
      rcases ih (if x.2 > p.2 then x else p) with h | h
      · rw [pyBest] at h
        rw [h]
        split_ifs
        · right; simp
        · left; rfl
      · rw [pyBest] at h
        right
        simp [h]

lemma tickLevels_ne_nil {tape : List Tick} (h : 20 ≤ tape.length) :
    tickLevels (lastN 20 tape) ≠ [] := by
  have hl : (lastN 20 tape).length = 20 := by
    simp only [lastN, List.length_drop]
    omega
  intro hnil
  have h2 : (lastN 20 tape).map (fun t => round2 t.price) = [] :=
    (List.dedup_eq_nil _).mp hnil
  have h3 : lastN 20 tape = [] := List.map_eq_nil_iff.mp h2
  rw [h3] at hl
  simp at hl

lemma voteTotals_total (pp cp ep : Direction × ℚ) :
    (voteTotals pp cp ep).total = (2/5) * pp.2 + (3/10) * cp.2 + (3/10) * ep.2 := by
  obtain ⟨dp, c1⟩ := pp
  obtain ⟨dc, c2⟩ := cp
  obtain ⟨de, c3⟩ := ep
  cases dp <;> cases dc <;> cases de <;>
    (simp [voteTotals, addVote]; try ring)

lemma buildSignal_cases (price : ℚ) (dc : Direction × ℚ) (pats : List (String × ℚ)) :
    (buildSignal price dc pats).signal = Direction.Hold
      ∧ (buildSignal price dc pats).stopLoss = price
      ∧ (buildSignal price dc pats).target = price
      ∧ (buildSignal price dc pats).riskReward = 0
      ∧ (buildSignal price dc pats).confidence = 0
    ∨ riskRewardExpr price (buildSignal price dc pats).stopLoss
        (buildSignal price dc pats).target (buildSignal price dc pats).signal
        = some (buildSignal price dc pats).riskReward := by
  unfold buildSignal
  rcases h : riskRewardExpr price (calculate_risk_reward price dc.1 dc.2).1
      (calculate_risk_reward price dc.1 dc.2).2 dc.1 with _ | rr
  · left; simp
  · right; simp [h]

/-! ## Concrete inputs used by witnesses and counterexamples -/

/-- A concrete stand-in for the square root, used only to instantiate closed
statements; every closed evaluation below stays on code paths that never
apply it to a nonzero argument. -/
def sqZ : ℚ → ℚ := fun _ => 0

/-- A fixed wall clock (10:30, Wednesday) for closed evaluations; no scoring
strategy reads the time-of-day features. -/
def now0 : Now := ⟨10, 30, 2⟩

/-- The spec's concrete scenario tick: price 4580.25, volume 50, aggressor
buy, market order. -/
def tick7 : Tick := ⟨18321/4, 50, Side.buy, OrderType.market⟩

/-- The spec's concrete scenario window: 10 identical such ticks. -/
def tape7 : List Tick := List.replicate 10 tick7

/-- A market snapshot consistent with the scenario: price 4580.25,
bid 4580, ask 4580.5, spread 0.5, volume 50. -/
def mkt7 : MarketData := ⟨18321/4, 4580, 9161/2, 1/2, 50⟩

/-- The scenario order flow: imbalance ratio 1.8, all other fields 0. -/
def of7 : OrderFlow := ⟨0, 0, 9/5, 0, 0, 0⟩

/-- An all-zero order flow. -/
def of0 : OrderFlow := ⟨0, 0, 0, 0, 0, 0⟩

/-- A quiet market snapshot at price 4580 (bid equal to price). -/
def mkt3 : MarketData := ⟨4580, 4580, 9161/2, 1/2, 10⟩

/-- A market snapshot at price 4620 after a large upward move. -/
def mkt4 : MarketData := ⟨4620, 4620, 4621, 1/2, 50⟩

/-- A two-tick tape recording a 40-point net price move (4580 to 4620). -/
def tape4 : List Tick :=
  [⟨4580, 50, Side.buy, OrderType.market⟩, ⟨4620, 50, Side.buy, OrderType.market⟩]

/-! ## Claims -/

/-- Claim C1: for every triple of strategy votes, if the combiner's computed
final confidence is below the configured minimum pattern confidence, the
returned direction is Hold and the returned confidence is exactly
max(computed confidence, 0.5). -/
theorem C1_gate_forces_hold (pp cp ep : Direction × ℚ)
    (h : computedConfidence pp cp ep < minPatternConfidence) :
    combine_predictions pp cp ep
      = (Direction.Hold, max (computedConfidence pp cp ep) (1/2)) := by
  unfold combine_predictions
  rw [if_pos h]

/-- Witness for C1 at the concrete vote triple (Buy 0, Hold 0, Hold 0). -/
theorem C1_gate_forces_hold_witness :
    computedConfidence (Direction.Buy, 0) (Direction.Hold, 0) (Direction.Hold, 0)
        < minPatternConfidence
      ∧ combine_predictions (Direction.Buy, 0) (Direction.Hold, 0) (Direction.Hold, 0)
        = (Direction.Hold,
            max (computedConfidence (Direction.Buy, 0) (Direction.Hold, 0)
              (Direction.Hold, 0)) (1/2)) :=
  ⟨by decide, C1_gate_forces_hold _ _ _ (by decide)⟩

/-- Claim C2: for every triple of strategy votes with confidences in [0,1],
the computed final confidence is the weighted sum (weights 0.4 / 0.3 / 0.3)
of the three confidences divided by the weight sum, irrespective of the vote
directions, and lies in [0,1]. -/
theorem C2_confidence_weighted_average (dp dc de : Direction) (c1 c2 c3 : ℚ)
    (h1 : 0 ≤ c1) (h2 : c1 ≤ 1) (h3 : 0 ≤ c2) (h4 : c2 ≤ 1)
    (h5 : 0 ≤ c3) (h6 : c3 ≤ 1) :
    computedConfidence (dp, c1) (dc, c2) (de, c3)
        = ((2/5) * c1 + (3/10) * c2 + (3/10) * c3) / ((2/5) + (3/10) + (3/10))
      ∧ 0 ≤ computedConfidence (dp, c1) (dc, c2) (de, c3)
      ∧ computedConfidence (dp, c1) (dc, c2) (de, c3) ≤ 1 := by
  have ht : (voteTotals (dp, c1) (dc, c2) (de, c3)).total
      = (2/5) * c1 + (3/10) * c2 + (3/10) * c3 := by
    simpa using voteTotals_total (dp, c1) (dc, c2) (de, c3)
  have hw : (2/5 + 3/10 + 3/10 : ℚ) = 1 := by norm_num
  unfold computedConfidence weightSum
  rw [ht, hw, div_one]
  refine ⟨rfl, by linarith, by linarith⟩

/-- Witness for C2 at the concrete vote triple (Buy 1, Sell 1/2, Hold 0). -/
theorem C2_confidence_weighted_average_witness :
    computedConfidence (Direction.Buy, 1) (Direction.Sell, 1/2) (Direction.Hold, 0)
        = ((2/5) * 1 + (3/10) * (1/2) + (3/10) * 0) / ((2/5) + (3/10) + (3/10))
      ∧ 0 ≤ computedConfidence (Direction.Buy, 1) (Direction.Sell, 1/2) (Direction.Hold, 0)
      ∧ computedConfidence (Direction.Buy, 1) (Direction.Sell, 1/2) (Direction.Hold, 0) ≤ 1 :=
  C2_confidence_weighted_average Direction.Buy Direction.Sell Direction.Hold 1 (1/2) 0
    (by norm_num) (by norm_num) (by norm_num) (by norm_num) (by norm_num) (by norm_num)

/-- Claim C6: every confidence the detector bank returns lies in [0,1] — the
bank clamps each template's raw score at the boundary before the threshold
filter, so no out-of-range value is ever emitted. -/
theorem C6_detected_confidence_in_unit (sq : ℚ → ℚ) (mkt : MarketData)
    (tape : List Tick) (ofl : OrderFlow) (name : String) (c : ℚ)
    (h : (name, c) ∈ detect_patterns sq mkt tape ofl) : 0 ≤ c ∧ c ≤ 1 := by
  unfold detect_patterns at h
  split_ifs at h with hlen
  · simp at h
  · rcases List.mem_filterMap.mp h with ⟨nf, _, hf⟩
    dsimp only at hf
    by_cases hth : patternThreshold nf.1 ≤ detect_single_pattern nf.2 mkt tape ofl
    · rw [if_pos hth] at hf
      simp only [Option.some.injEq, Prod.mk.injEq] at hf
      rw [← hf.2]
      exact ⟨clamp01_nonneg _, clamp01_le_one _⟩
    · rw [if_neg hth] at hf
      simp at hf

/-- Witness for C6 at the one pattern detected in the concrete scenario. -/
theorem C6_detected_confidence_in_unit_witness :
    0 ≤ (47/50 : ℚ) ∧ (47/50 : ℚ) ≤ 1 :=
  C6_detected_confidence_in_unit sqZ mkt7 tape7 of7 "order_flow_imbalance" (47/50)
    (by decide)

/-- Claim C10: for every pattern mapping whose keys come from the bank's
fixed registry, the pattern-rule strategy votes Buy or Hold, never Sell: its
only Sell branch tests for the name "aggressive_sell", which no registered
detector can emit. -/
theorem C10_pattern_vote_never_sell (sq : ℚ → ℚ) (patterns : List (String × ℚ))
    (h : ∀ x ∈ patterns, x.1 ∈ (patternRegistry sq).map Prod.fst) :
    (predict_pattern_model patterns).1 = Direction.Buy
      ∨ (predict_pattern_model patterns).1 = Direction.Hold := by
  cases patterns with
  | nil => right; rfl
  | cons p ps =>
    have hmem : pyBest p ps ∈ p :: ps := by
      rcases pyBest_mem p ps with h1 | h1
      · rw [h1]; exact List.mem_cons_self _ _
      · exact List.mem_cons_of_mem _ h1
    have hname := h _ hmem
    unfold predict_pattern_model
    dsimp only
    split_ifs with hb1 hb2 hb3 hb4
    · left; rfl
    · left; rfl
    · exfalso
      rw [hb3.1] at hname
      have hreg : (patternRegistry sq).map Prod.fst
          = ["absorption", "iceberg", "aggressive_entry", "hidden_liquidity",
             "stop_hunt", "momentum_shift", "volume_spike",
             "order_flow_imbalance"] := rfl
      rw [hreg] at hname
      exact absurd hname (by decide)
    · left; rfl
    · right; rfl

/-- Witness for C10 at the concrete mapping {absorption: 0.9}. -/
theorem C10_pattern_vote_never_sell_witness :
    (predict_pattern_model [("absorption", 9/10)]).1 = Direction.Buy
      ∨ (predict_pattern_model [("absorption", 9/10)]).1 = Direction.Hold :=
  C10_pattern_vote_never_sell sqZ [("absorption", 9/10)] (by decide)

/-- Claim C5 as stated is false for two detectors; this counterexample gives
a window (the empty tape, length 0 < 15) on which hidden_liquidity returns
1, not 0: the source normalises the order-flow hidden-liquidity indicator
before any window-length test. -/
theorem C5_counterexample :
    template_hidden_liquidity mkt3 [] ⟨0, 0, 0, 0, 100, 0⟩ = 1
      ∧ (1 : ℚ) ≠ 0 := by
  refine ⟨by decide, by norm_num⟩

/-- Claim C5 (amended): below its minimum window length every guarded
detector (absorption 20, iceberg 30, aggressive_entry 10, stop_hunt 25,
momentum_shift 20, volume_spike 15) returns exactly 0.0 and no detector
faults; the two unguarded detectors skip only their tape enhancement and
return their order-flow base score — hidden_liquidity (minimum 15) returns
min(hidden_liquidity/100, 1) and order_flow_imbalance (minimum 10) returns
min(|imbalance_ratio|/2, 1), which need not be 0. -/
theorem C5_short_window_scores (sq : ℚ → ℚ) (mkt : MarketData)
    (tape : List Tick) (ofl : OrderFlow) :
    (tape.length < 20 → template_absorption mkt tape ofl = 0)
  ∧ (tape.length < 30 → template_iceberg sq mkt tape ofl = 0)
  ∧ (tape.length < 10 → template_aggressive_entry mkt tape ofl = 0)
  ∧ (tape.length < 25 → template_stop_hunt mkt tape ofl = 0)
  ∧ (tape.length < 20 → template_momentum_shift mkt tape ofl = 0)
  ∧ (tape.length < 15 → template_volume_spike sq mkt tape ofl = 0)
  ∧ (tape.length < 15 →
      template_hidden_liquidity mkt tape ofl = min (ofl.hidden / 100) 1)
  ∧ (tape.length < 10 →
      template_order_flow_imbalance mkt tape ofl = min (|ofl.imbalance| / 2) 1) := by
  refine ⟨?_, ?_, ?_, ?_, ?_, ?_, ?_, ?_⟩ <;> intro h
  · unfold template_absorption; rw [if_pos h]
  · unfold template_iceberg; rw [if_pos h]
  · unfold template_aggressive_entry; rw [if_pos h]
  · unfold template_stop_hunt; rw [if_pos h]
  · unfold template_momentum_shift; rw [if_pos h]
  · unfold template_volume_spike; rw [if_pos h]
  · simp only [template_hidden_liquidity]; rw [if_neg (by omega)]
  · simp only [template_order_flow_imbalance]; rw [if_neg (by omega)]

/-- Witness for C5 (amended) at the empty tape window. -/
theorem C5_short_window_scores_witness :
    template_absorption mkt3 [] of7 = 0
  ∧ template_iceberg sqZ mkt3 [] of7 = 0
  ∧ template_aggressive_entry mkt3 [] of7 = 0
  ∧ template_stop_hunt mkt3 [] of7 = 0
  ∧ template_momentum_shift mkt3 [] of7 = 0
  ∧ template_volume_spike sqZ mkt3 [] of7 = 0
  ∧ template_hidden_liquidity mkt3 [] of7 = min (of7.hidden / 100) 1
  ∧ template_order_flow_imbalance mkt3 [] of7 = min (|of7.imbalance| / 2) 1 := by
  have h := C5_short_window_scores sqZ mkt3 [] of7
  exact ⟨h.1 (by decide), h.2.1 (by decide), h.2.2.1 (by decide),
    h.2.2.2.1 (by decide), h.2.2.2.2.1 (by decide), h.2.2.2.2.2.1 (by decide),
    h.2.2.2.2.2.2.1 (by decide), h.2.2.2.2.2.2.2 (by decide)⟩

/-- Claim C9: for two windows of at least 20 ticks with equal price-range
stability scores and equal order-flow scores, a lower-or-equal
volume-concentration ratio gives a lower-or-equal absorption score. -/
theorem C9_absorption_monotone (m1 m2 : MarketData) (t1 t2 : List Tick)
    (of1 of2 : OrderFlow) (h1 : 20 ≤ t1.length) (h2 : 20 ≤ t2.length)
    (hs : stabilityScore t1 = stabilityScore t2)
    (hf : absorptionFlow of1 = absorptionFlow of2)
    (hr : concentrationInput t1 ≤ concentrationInput t2) :
    template_absorption m1 t1 of1 ≤ template_absorption m2 t2 of2 := by
  unfold template_absorption
  rw [if_neg (by omega), if_neg (tickLevels_ne_nil h1),
    if_neg (by omega), if_neg (tickLevels_ne_nil h2)]
  have hm : min (concentrationInput t1 * 3) 1 ≤ min (concentrationInput t2 * 3) 1 :=
    min_le_min (by linarith) le_rfl
  rw [hs, hf]
  linarith

/-- A 20-tick window split 10/10 over two price levels (concentration
1/2). -/
def tapeA : List Tick :=
  List.replicate 10 ⟨100, 1, Side.buy, OrderType.market⟩
    ++ List.replicate 10 ⟨101, 1, Side.buy, OrderType.market⟩

/-- A 20-tick window split 19/1 over the same two price levels
(concentration 19/20). -/
def tapeB : List Tick :=
  List.replicate 19 ⟨100, 1, Side.buy, OrderType.market⟩
    ++ [⟨101, 1, Side.buy, OrderType.market⟩]

/-- Witness for C9 on the two concrete 20-tick windows. -/
theorem C9_absorption_monotone_witness :
    template_absorption mkt3 tapeA of0 ≤ template_absorption mkt3 tapeB of0 :=
  C9_absorption_monotone mkt3 mkt3 tapeA tapeB of0 of0 (by decide) (by decide)
    (by decide) rfl (by decide)

/-- Claim C3 (code bug): whenever the combined direction is Hold,
`_calculate_risk_reward` returns stop_loss = target = entry and the
`risk_reward` keyword expression evaluates (entry - target)/(stop - entry)
= 0/0, raising `ZeroDivisionError` (modelled as `none`); the blanket
handler then returns the error fallback signal — risk_reward is 0 as
claimed, but a division fault does occur and it clobbers the computed
confidence (0.5 after the gate) down to 0. -/
theorem C3_hold_division_fault :
    calculate_risk_reward 4580 Direction.Hold (1/2) = (4580, 4580)
  ∧ riskRewardExpr 4580 4580 4580 Direction.Hold = none
  ∧ generate_signal sqZ now0 mkt3 [] of0 []
      = { signal := Direction.Hold, confidence := 0, stopLoss := 4580,
          target := 4580, riskReward := 0, patternMatched := "error" } := by
  refine ⟨by decide, by decide, by decide⟩

/-- Claim C4 as stated is false: a reachable combined vote (the
feature-confidence strategy's confidence is unbounded, here 10.55 after a
40-point net move) yields direction Buy with final confidence 3.365 > 2,
making the stop offset negative, so the returned Buy signal has its
stop_loss ABOVE the entry price. -/
theorem C4_counterexample :
    (generate_signal sqZ now0 mkt4 tape4 of0 []).signal = Direction.Buy
  ∧ mkt4.price < (generate_signal sqZ now0 mkt4 tape4 of0 []).stopLoss := by
  refine ⟨by decide, by decide⟩

lemma riskRewardExpr_ne_none_buy (p s t : ℚ) (h : s < p) :
    riskRewardExpr p s t Direction.Buy ≠ none := by
  unfold riskRewardExpr qdivFault
  rw [if_pos rfl, if_neg (by intro h0; linarith [sub_eq_zero.mp h0])]
  simp

lemma riskRewardExpr_ne_none_sell (p s t : ℚ) (h : p < s) :
    riskRewardExpr p s t Direction.Sell ≠ none := by
  unfold riskRewardExpr qdivFault
  rw [if_neg (by simp), if_neg (by intro h0; linarith [sub_eq_zero.mp h0])]
  simp

lemma riskFields_of_ne_none (p conf : ℚ) (dir : Direction)
    (h : riskRewardExpr p (calculate_risk_reward p dir conf).1
      (calculate_risk_reward p dir conf).2 dir ≠ none) :
    (riskFields p dir conf).1 = (calculate_risk_reward p dir conf).1
      ∧ (riskFields p dir conf).2.1 = (calculate_risk_reward p dir conf).2 := by
  unfold riskFields buildSignal
  rcases hrr : riskRewardExpr p (calculate_risk_reward p dir conf).1
      (calculate_risk_reward p dir conf).2 dir with _ | rr
  · exact absurd hrr h
  · simp [hrr]

/-- Claim C4 (amended): the Hold clause holds for every confidence (via the
error fallback, which sets stop_loss = target = entry and risk_reward = 0);
the Buy and Sell orderings (target > entry > stop_loss, resp. mirrored) hold
for every final confidence at least the minimum pattern confidence 0.85
(guaranteed by the combiner gate whenever the direction is not Hold) AND
below 2 - 1/300 — beyond that bound the stop offset 1.5(2 - conf) is
negative or rounds to nothing, and the ordering fails (see the
counterexample). -/
theorem C4_risk_ordering (p conf : ℚ) :
    riskFields p Direction.Hold conf = (p, p, 0)
  ∧ (17/20 ≤ conf → conf < 2 - 1/300 →
      ((riskFields p Direction.Buy conf).1 < p
        ∧ p < (riskFields p Direction.Buy conf).2.1
        ∧ p < (riskFields p Direction.Sell conf).1
        ∧ (riskFields p Direction.Sell conf).2.1 < p)) := by
  constructor
  · unfold riskFields buildSignal calculate_risk_reward riskRewardExpr qdivFault
    norm_num
  · intro hl hu
    have hmin : (51/40 : ℚ) ≤ min (conf * (3/2)) 2 :=
      le_min (by linarith) (by norm_num)
    have hsb : round2 (p - (3/2) * (2 - conf)) < p := by
      have := round2_le (p - (3/2) * (2 - conf))
      linarith
    have htb : p < round2 (p + 2 * min (conf * (3/2)) 2) := by
      have := le_round2 (p + 2 * min (conf * (3/2)) 2)
      linarith
    have hss : p < round2 (p + (3/2) * (2 - conf)) := by
      have := le_round2 (p + (3/2) * (2 - conf))
      linarith
    have hts : round2 (p - 2 * min (conf * (3/2)) 2) < p := by
      have := round2_le (p - 2 * min (conf * (3/2)) 2)
      linarith
    have hb := riskFields_of_ne_none p conf Direction.Buy
      (riskRewardExpr_ne_none_buy p _ _ hsb)
    have hs := riskFields_of_ne_none p conf Direction.Sell
      (riskRewardExpr_ne_none_sell p _ _ hss)
    rw [hb.1, hb.2, hs.1, hs.2]
    exact ⟨hsb, htb, hss, hts⟩

/-- Witness for C4 (amended) at entry 100 and final confidence 0.9. -/
theorem C4_risk_ordering_witness :
    riskFields 100 Direction.Hold (9/10) = (100, 100, 0)
  ∧ ((riskFields 100 Direction.Buy (9/10)).1 < 100
      ∧ 100 < (riskFields 100 Direction.Buy (9/10)).2.1
      ∧ 100 < (riskFields 100 Direction.Sell (9/10)).1
      ∧ (riskFields 100 Direction.Sell (9/10)).2.1 < 100) :=
  ⟨(C4_risk_ordering 100 (9/10)).1,
   (C4_risk_ordering 100 (9/10)).2 (by norm_num) (by norm_num)⟩

/-- Claim C7 as stated is false on the code: with only 10 ticks the window
is below absorption's 20-tick minimum, so absorption scores 0.0 and is not
reported, and the final direction is not Buy. -/
theorem C7_counterexample :
    ¬("absorption" ∈ (detect_patterns sqZ mkt7 tape7 of7).map Prod.fst
      ∧ (generate_signal sqZ now0 mkt7 tape7 of7
          (detect_patterns sqZ mkt7 tape7 of7)).signal = Direction.Buy) := by
  decide

/-- Claim C7 (amended): on the concrete scenario (10 ticks at 4580.25,
volume 50, aggressor buy, imbalance ratio 1.8, other order-flow fields 0,
market snapshot price 4580.25 / bid 4580 / spread 0.5 / volume 50) only
order_flow_imbalance is detected, at confidence 0.94; absorption scores 0.0
(window below its 20-tick minimum); the combiner yields Hold at the floored
confidence 0.5, and the returned signal's direction is Hold, not Buy. -/
theorem C7_scenario :
    detect_patterns sqZ mkt7 tape7 of7 = [("order_flow_imbalance", 47/50)]
  ∧ template_absorption mkt7 tape7 of7 = 0
  ∧ combine_predictions
      (predict_pattern_model (detect_patterns sqZ mkt7 tape7 of7))
      (predict_confidence_model (engineer_features sqZ now0 mkt7 tape7 of7))
      (predict_ensemble_model (engineer_features sqZ now0 mkt7 tape7 of7))
      = (Direction.Hold, 1/2)
  ∧ (generate_signal sqZ now0 mkt7 tape7 of7
      (detect_patterns sqZ mkt7 tape7 of7)).signal = Direction.Hold := by
  refine ⟨by decide, by decide, by decide, by decide⟩

/-- Claim C8: `generate_signal` is total — for every well-typed input it
returns a record, and either the risk-reward division succeeded and the
record carries exactly that quotient, or the fault was caught and the
returned record is the safe Hold fallback with stop_loss = target = current
price and risk_reward 0. -/
theorem C8_generate_signal_total (sq : ℚ → ℚ) (now : Now) (mkt : MarketData)
    (tape : List Tick) (ofl : OrderFlow) (patterns : List (String × ℚ)) :
    ((generate_signal sq now mkt tape ofl patterns).signal = Direction.Hold
      ∧ (generate_signal sq now mkt tape ofl patterns).stopLoss = mkt.price
      ∧ (generate_signal sq now mkt tape ofl patterns).target = mkt.price
      ∧ (generate_signal sq now mkt tape ofl patterns).riskReward = 0
      ∧ (generate_signal sq now mkt tape ofl patterns).confidence = 0)
    ∨ riskRewardExpr mkt.price (generate_signal sq now mkt tape ofl patterns).stopLoss
        (generate_signal sq now mkt tape ofl patterns).target
        (generate_signal sq now mkt tape ofl patterns).signal
        = some (generate_signal sq now mkt tape ofl patterns).riskReward := by
  unfold generate_signal
  exact buildSignal_cases mkt.price _ patterns
